import Mathlib

/-!
Verification of `gtsam/nonlinear/NonlinearOptimization-inl.h`.

A shallow embedding of the four function templates of the file
(`optimizeSequential`, `optimizeMultiFrontal`, `optimizeSPCG`, `optimize`)
and the properties of the facade they form.

The templates only wire collaborators together: the COLAMD ordering of the
graph, the `NonlinearOptimizer` engine, the `SubgraphSolver` backend and the
two convergence strategies.  None of them is defined in the file, so they are
parameters of the embedding (`Collaborators`).  Every collaborator call may
throw; a call that throws ends the function with that exception, as in C++.
A run of a function is its outcome together with the list of collaborator
calls it made, in order, so that "is called once" and "is not called" can be
stated.

The templates also copy objects themselves: the three `boost::make_shared`
arguments of the engine constructor and the `T` they return by value.  A copy
can throw too.  `optimizeSequential`, `optimizeMultiFrontal` and `optimize`
are therefore embedded twice: in the namespace `Copying` with these copies as
steps that may throw (`Copies`), and plainly, with the copies exact and
non-throwing; the plain functions are the `Copying` ones at `Copies.exact`.
-/

namespace gtsam

/-! ## Exceptions and runs -/

/-- What can leave one of the functions as a C++ exception: the
`runtime_error` thrown by `optimize` itself, with its message, or whatever a
collaborator threw. -/
inductive Exn (X : Type) where
  | runtime_error (what : String)
  | collaborator (e : X)
  deriving DecidableEq, Repr

/-- The two `NonlinearOptimizer` instantiations built from an external
ordering: the fourth template argument of the `Optimizer` typedef in
`optimizeSequential` and in `optimizeMultiFrontal`. -/
inductive Backend where
  | GaussianSequentialSolver
  | GaussianMultifrontalSolver
  deriving DecidableEq, Repr

/-- One collaborator call, with the arguments it received.
`G` graph, `T` values, `O` ordering, `P` nonlinear parameters,
`I` iterative-solver parameters, `S` subgraph solver, `N` optimizer. -/
inductive Call (G T O P I S N : Type) where
  /-- The call `graph.orderingCOLAMD(initialEstimate)`. -/
  | orderingCOLAMD (graph : G) (initialEstimate : T)
  /-- The constructor `Optimizer optimizer(graph, values, ordering, parameters)`. -/
  | newOptimizer (backend : Backend) (graph : G) (values : T) (ordering : O) (parameters : P)
  /-- The constructor `Solver(graph, initialEstimate, IterativeOptimizationParameters())`. -/
  | newSubgraphSolver (graph : G) (initialEstimate : T) (iterative : I)
  /-- The call `solver->ordering()`. -/
  | solverOrdering (solver : S)
  /-- The constructor `SPCGOptimizer optimizer(graph, values, ordering, solver, parameters)`. -/
  | newSPCGOptimizer (graph : G) (values : T) (ordering : O) (solver : S) (parameters : P)
  /-- The call `optimizer.levenbergMarquardt()`. -/
  | levenbergMarquardt (optimizer : N)
  /-- The call `optimizer.gaussNewton()`. -/
  | gaussNewton (optimizer : N)
  /-- The call `.values()` on the optimizer a strategy returned. -/
  | values (optimizer : N)
  deriving DecidableEq, Repr

instance {ε α : Type} [DecidableEq ε] [DecidableEq α] : DecidableEq (Except ε α)
  | .ok a, .ok b => if h : a = b then isTrue (by rw [h]) else isFalse (by simpa using h)
  | .error a, .error b => if h : a = b then isTrue (by rw [h]) else isFalse (by simpa using h)
  | .ok _, .error _ => isFalse (by simp)
  | .error _, .ok _ => isFalse (by simp)

/-- A finished run: how it ended and which collaborator calls it made. -/
structure Run (E X α : Type) where
  outcome : Except (Exn X) α
  trace : List E
  deriving DecidableEq

/-- Sequencing of C++ statements: when the first part throws, the rest is not
run and the exception is the outcome; otherwise the rest runs on its value and
the calls of both parts are concatenated. -/
def Run.bind {E X α β : Type} (r : Run E X α) (f : α → Run E X β) : Run E X β :=
  match r.outcome with
  | .error e => ⟨.error e, r.trace⟩
  | .ok a => ⟨(f a).outcome, r.trace ++ (f a).trace⟩

instance {E X : Type} : Monad (Run E X) where
  pure a := ⟨.ok a, []⟩
  bind := Run.bind

/-- One call of a collaborator: it is recorded, and it returns or throws. -/
def call {E X α : Type} (ev : E) (r : Except X α) : Run E X α :=
  ⟨match r with
   | .error e => .error (.collaborator e)
   | .ok a => .ok a, [ev]⟩

/-- The statement `throw runtime_error(what)`. -/
def throw_runtime_error {E X α : Type} (what : String) : Run E X α :=
  ⟨.error (.runtime_error what), []⟩

/-! ## The collaborators -/

/-- The functions the file calls and does not define.  A constructor or a
strategy returns its object or throws (`Except X`); the two accessors
`values()` and `ordering()` return a stored member. -/
structure Collaborators (G T O P I S N X : Type) where
  /-- The member `G::orderingCOLAMD`. -/
  orderingCOLAMD : G → T → Except X O
  /-- The four-argument constructor of `NonlinearOptimizer<G, T, GaussianFactorGraph, Backend>`. -/
  newOptimizer : Backend → G → T → O → P → Except X N
  /-- The default constructor `IterativeOptimizationParameters()`. -/
  IterativeOptimizationParameters : I
  /-- The constructor of `SubgraphSolver<G, GaussianFactorGraph, T>`. -/
  newSubgraphSolver : G → T → I → Except X S
  /-- The member `SubgraphSolver::ordering`. -/
  solverOrdering : S → O
  /-- The five-argument constructor of `NonlinearOptimizer<G, T, GaussianFactorGraph, Solver>`. -/
  newSPCGOptimizer : G → T → O → S → P → Except X N
  /-- The member `NonlinearOptimizer::levenbergMarquardt`. -/
  levenbergMarquardt : N → Except X N
  /-- The member `NonlinearOptimizer::gaussNewton`. -/
  gaussNewton : N → Except X N
  /-- The member `NonlinearOptimizer::values`. -/
  values : N → T

/-- The enumerators the file uses, as the integers they denote.  The
enumerations `LinearSolver` and `NonlinearOptimizationMethod` are declared in
a header that is not part of the file; `GN` is not used by the file and is
here to state properties of the method kind. -/
structure Enumerators where
  SEQUENTIAL : Int
  MULTIFRONTAL : Int
  SPCG : Int
  LM : Int
  GN : Int
  deriving DecidableEq, Repr

/-- The case labels of the `switch` in `optimize` are pairwise different (C++
rejects a `switch` with a repeated label). -/
def Enumerators.labelsDistinct (E : Enumerators) : Prop :=
  E.SEQUENTIAL ≠ E.MULTIFRONTAL ∧ E.SEQUENTIAL ≠ E.SPCG ∧ E.MULTIFRONTAL ≠ E.SPCG

instance (E : Enumerators) : Decidable E.labelsDistinct := by
  unfold Enumerators.labelsDistinct
  infer_instance

section Facade

variable {G T O P I S N X : Type}

/-! ## The function templates -/

/-- The template `optimizeSequential` (lines 34-52). -/
def optimizeSequential (c : Collaborators G T O P I S N X) (graph : G) (initialEstimate : T)
    (parameters : P) (useLM : Bool) : Run (Call G T O P I S N) X T := do
  -- Use a variable ordering from COLAMD
  let ordering ← call (.orderingCOLAMD graph initialEstimate)
    (c.orderingCOLAMD graph initialEstimate)
  -- Create an nonlinear Optimizer that uses a Sequential Solver
  let optimizer ← call
    (.newOptimizer .GaussianSequentialSolver graph initialEstimate ordering parameters)
    (c.newOptimizer .GaussianSequentialSolver graph initialEstimate ordering parameters)
  -- Now optimize using either LM or GN methods.
  if useLM then do
    let result ← call (.levenbergMarquardt optimizer) (c.levenbergMarquardt optimizer)
    call (.values result) (.ok (c.values result))
  else do
    let result ← call (.gaussNewton optimizer) (c.gaussNewton optimizer)
    call (.values result) (.ok (c.values result))

/-- The template `optimizeMultiFrontal` (lines 57-75). -/
def optimizeMultiFrontal (c : Collaborators G T O P I S N X) (graph : G) (initialEstimate : T)
    (parameters : P) (useLM : Bool) : Run (Call G T O P I S N) X T := do
  -- Use a variable ordering from COLAMD
  let ordering ← call (.orderingCOLAMD graph initialEstimate)
    (c.orderingCOLAMD graph initialEstimate)
  -- Create an nonlinear Optimizer that uses a Multifrontal Solver
  let optimizer ← call
    (.newOptimizer .GaussianMultifrontalSolver graph initialEstimate ordering parameters)
    (c.newOptimizer .GaussianMultifrontalSolver graph initialEstimate ordering parameters)
  -- now optimize using either LM or GN methods
  if useLM then do
    let result ← call (.levenbergMarquardt optimizer) (c.levenbergMarquardt optimizer)
    call (.values result) (.ok (c.values result))
  else do
    let result ← call (.gaussNewton optimizer) (c.gaussNewton optimizer)
    call (.values result) (.ok (c.values result))

/-- The template `optimize` (lines 108-125).  `solver` and `nonlinear_method`
are the integer values of the two enumeration arguments; the `switch` takes
the case whose label equals `solver` and falls out of the block when there is
none. -/
def optimize (E : Enumerators) (c : Collaborators G T O P I S N X) (graph : G)
    (initialEstimate : T) (parameters : P) (solver : Int) (nonlinear_method : Int) :
    Run (Call G T O P I S N) X T :=
  if solver = E.SEQUENTIAL then
    optimizeSequential c graph initialEstimate parameters (nonlinear_method == E.LM)
  else if solver = E.MULTIFRONTAL then
    optimizeMultiFrontal c graph initialEstimate parameters (nonlinear_method == E.LM)
  else if solver = E.SPCG then
    throw_runtime_error "optimize: SPCG not supported yet due to the specific pose constraint"
  else
    throw_runtime_error "optimize: undefined solver"

/-! ## Vocabulary for the properties -/

/-- The strategy member selected by the flag `useLM`. -/
def Collaborators.strategy (c : Collaborators G T O P I S N X) (useLM : Bool) (n : N) :
    Except X N :=
  if useLM then c.levenbergMarquardt n else c.gaussNewton n

/-- The recorded call of the strategy selected by the flag `useLM`. -/
def Call.strategy (useLM : Bool) (n : N) : Call G T O P I S N :=
  if useLM then .levenbergMarquardt n else .gaussNewton n

/-- A call of the ordering provider. -/
def Call.isOrdering : Call G T O P I S N → Bool
  | .orderingCOLAMD _ _ => true
  | _ => false

/-- A construction of a linear-solver backend object. -/
def Call.isBackendConstruction : Call G T O P I S N → Bool
  | .newSubgraphSolver _ _ _ => true
  | _ => false

/-- A construction of an optimizer engine, of any instantiation. -/
def Call.isEngineConstruction : Call G T O P I S N → Bool
  | .newOptimizer _ _ _ _ _ => true
  | .newSPCGOptimizer _ _ _ _ _ => true
  | _ => false

/-- A call of `levenbergMarquardt()`. -/
def Call.isLevenbergMarquardt : Call G T O P I S N → Bool
  | .levenbergMarquardt _ => true
  | _ => false

/-- A call of `gaussNewton()`. -/
def Call.isGaussNewton : Call G T O P I S N → Bool
  | .gaussNewton _ => true
  | _ => false

/-- A call of one of the two convergence strategies. -/
def Call.isStrategy (ev : Call G T O P I S N) : Bool :=
  ev.isLevenbergMarquardt || ev.isGaussNewton

/-- The solver kind `solver` is one of the two exact-elimination kinds, and
`b` is the backend its case of the `switch` instantiates the engine with. -/
def Enumerators.routes (E : Enumerators) (solver : Int) (b : Backend) : Prop :=
  (solver = E.SEQUENTIAL ∧ b = .GaussianSequentialSolver) ∨
  (solver = E.MULTIFRONTAL ∧ b = .GaussianMultifrontalSolver)

/-- The run of an exact-elimination entry point written out case by case:
which collaborator threw first, if any. -/
def eliminationRun (c : Collaborators G T O P I S N X) (b : Backend) (graph : G)
    (initialEstimate : T) (parameters : P) (useLM : Bool) : Run (Call G T O P I S N) X T :=
  match c.orderingCOLAMD graph initialEstimate with
  | .error e => ⟨.error (.collaborator e), [.orderingCOLAMD graph initialEstimate]⟩
  | .ok o =>
    match c.newOptimizer b graph initialEstimate o parameters with
    | .error e => ⟨.error (.collaborator e),
        [.orderingCOLAMD graph initialEstimate,
         .newOptimizer b graph initialEstimate o parameters]⟩
    | .ok n =>
      match c.strategy useLM n with
      | .error e => ⟨.error (.collaborator e),
          [.orderingCOLAMD graph initialEstimate,
           .newOptimizer b graph initialEstimate o parameters,
           Call.strategy useLM n]⟩
      | .ok r => ⟨.ok (c.values r),
          [.orderingCOLAMD graph initialEstimate,
           .newOptimizer b graph initialEstimate o parameters,
           Call.strategy useLM n,
           .values r]⟩

/-- The copies the templates make themselves.  Each returns the copy or
throws what the allocation or the copy constructor threw; such an exception
leaves the function like one of a collaborator (`Exn.collaborator`). -/
structure Copies (G T P X : Type) where
  /-- The argument list `boost::make_shared<const G>(graph),
  boost::make_shared<const T>(initialEstimate), ...,
  boost::make_shared<NonlinearOptimizationParameters>(parameters)` of the
  engine constructor: the three copies, or the exception that ended the
  evaluation of the arguments.  C++ leaves the order of the three unspecified,
  so they are one step. -/
  make_shared : G → T → P → Except X (G × T × P)
  /-- The copy of `*optimizer.<method>().values()` into the returned `T`. -/
  copyResult : T → Except X T

/-- Copies that never throw and equal what they copy. -/
def Copies.exact {G T P X : Type} : Copies G T P X where
  make_shared := fun g t p => .ok (g, t, p)
  copyResult := fun v => .ok v

/-- A step of the template itself that may throw and is no collaborator call. -/
def step {E X α : Type} (r : Except X α) : Run E X α :=
  ⟨match r with
   | .error e => .error (.collaborator e)
   | .ok a => .ok a, []⟩

/-- The template `optimizeSequential` (lines 34-52), copies included. -/
def Copying.optimizeSequential (k : Copies G T P X) (c : Collaborators G T O P I S N X)
    (graph : G) (initialEstimate : T) (parameters : P) (useLM : Bool) :
    Run (Call G T O P I S N) X T := do
  -- Use a variable ordering from COLAMD
  let ordering ← call (.orderingCOLAMD graph initialEstimate)
    (c.orderingCOLAMD graph initialEstimate)
  -- Create an nonlinear Optimizer that uses a Sequential Solver
  let copies ← step (k.make_shared graph initialEstimate parameters)
  let optimizer ← call
    (.newOptimizer .GaussianSequentialSolver copies.1 copies.2.1 ordering copies.2.2)
    (c.newOptimizer .GaussianSequentialSolver copies.1 copies.2.1 ordering copies.2.2)
  -- Now optimize using either LM or GN methods.
  if useLM then do
    let result ← call (.levenbergMarquardt optimizer) (c.levenbergMarquardt optimizer)
    let values ← call (.values result) (.ok (c.values result))
    step (k.copyResult values)
  else do
    let result ← call (.gaussNewton optimizer) (c.gaussNewton optimizer)
    let values ← call (.values result) (.ok (c.values result))
    step (k.copyResult values)

/-- The template `optimizeMultiFrontal` (lines 57-75), copies included. -/
def Copying.optimizeMultiFrontal (k : Copies G T P X) (c : Collaborators G T O P I S N X)
    (graph : G) (initialEstimate : T) (parameters : P) (useLM : Bool) :
    Run (Call G T O P I S N) X T := do
  -- Use a variable ordering from COLAMD
  let ordering ← call (.orderingCOLAMD graph initialEstimate)
    (c.orderingCOLAMD graph initialEstimate)
  -- Create an nonlinear Optimizer that uses a Multifrontal Solver
  let copies ← step (k.make_shared graph initialEstimate parameters)
  let optimizer ← call
    (.newOptimizer .GaussianMultifrontalSolver copies.1 copies.2.1 ordering copies.2.2)
    (c.newOptimizer .GaussianMultifrontalSolver copies.1 copies.2.1 ordering copies.2.2)
  -- now optimize using either LM or GN methods
  if useLM then do
    let result ← call (.levenbergMarquardt optimizer) (c.levenbergMarquardt optimizer)
    let values ← call (.values result) (.ok (c.values result))
    step (k.copyResult values)
  else do
    let result ← call (.gaussNewton optimizer) (c.gaussNewton optimizer)
    let values ← call (.values result) (.ok (c.values result))
    step (k.copyResult values)

/-- The template `optimize` (lines 108-125) over the entry points with their
copies; the `switch` itself copies nothing. -/
def Copying.optimize (E : Enumerators) (k : Copies G T P X)
    (c : Collaborators G T O P I S N X) (graph : G) (initialEstimate : T) (parameters : P)
    (solver : Int) (nonlinear_method : Int) : Run (Call G T O P I S N) X T :=
  if solver = E.SEQUENTIAL then
    Copying.optimizeSequential k c graph initialEstimate parameters (nonlinear_method == E.LM)
  else if solver = E.MULTIFRONTAL then
    Copying.optimizeMultiFrontal k c graph initialEstimate parameters (nonlinear_method == E.LM)
  else if solver = E.SPCG then
    throw_runtime_error "optimize: SPCG not supported yet due to the specific pose constraint"
  else
    throw_runtime_error "optimize: undefined solver"

/-- The run of an exact-elimination entry point with its copies, written out
case by case: which step threw first, if any. -/
def Copying.eliminationRun (k : Copies G T P X) (c : Collaborators G T O P I S N X)
    (b : Backend) (graph : G) (initialEstimate : T) (parameters : P) (useLM : Bool) :
    Run (Call G T O P I S N) X T :=
  match c.orderingCOLAMD graph initialEstimate with
  | .error e => ⟨.error (.collaborator e), [.orderingCOLAMD graph initialEstimate]⟩
  | .ok o =>
    match k.make_shared graph initialEstimate parameters with
    | .error e => ⟨.error (.collaborator e), [.orderingCOLAMD graph initialEstimate]⟩
    | .ok copies =>
      match c.newOptimizer b copies.1 copies.2.1 o copies.2.2 with
      | .error e => ⟨.error (.collaborator e),
          [.orderingCOLAMD graph initialEstimate,
           .newOptimizer b copies.1 copies.2.1 o copies.2.2]⟩
      | .ok n =>
        match c.strategy useLM n with
        | .error e => ⟨.error (.collaborator e),
            [.orderingCOLAMD graph initialEstimate,
             .newOptimizer b copies.1 copies.2.1 o copies.2.2,
             Call.strategy useLM n]⟩
        | .ok r =>
          match k.copyResult (c.values r) with
          | .error e => ⟨.error (.collaborator e),
              [.orderingCOLAMD graph initialEstimate,
               .newOptimizer b copies.1 copies.2.1 o copies.2.2,
               Call.strategy useLM n,
               .values r]⟩
          | .ok v => ⟨.ok v,
              [.orderingCOLAMD graph initialEstimate,
               .newOptimizer b copies.1 copies.2.1 o copies.2.2,
               Call.strategy useLM n,
               .values r]⟩

end Facade

/-! ## A small instance

Three variables with one unary factor each, and collaborators that can be
evaluated: used to run the functions on concrete inputs. -/

/-- The variables of the small instance. -/
inductive Var where
  | a
  | b
  | c
  deriving DecidableEq, Repr

/-- What the collaborators of the small instance throw. -/
inductive Failure where
  | malformedGraph
  | notConverged
  | bad_alloc
  deriving DecidableEq, Repr

/-- An optimizer of the small instance: the backend it was instantiated with
(`none` for the subgraph solver) and the members the constructor stored. -/
structure SampleOptimizer where
  backend : Option Backend
  graph : List (Var × Int)
  values : List (Var × Int)
  ordering : List Var
  maxIterations : Nat
  deriving DecidableEq, Repr

/-- A subgraph solver of the small instance. -/
structure SampleSolver where
  ordering : List Var
  maxIterations : Nat
  deriving DecidableEq, Repr

/-- The value a unary factor of the graph asks for, the current one when
there is no factor on the variable. -/
def sampleTarget (graph : List (Var × Int)) (kv : Var × Int) : Int :=
  match graph.lookup kv.1 with
  | some z => z
  | none => kv.2

/-- Collaborators of the small instance.  The ordering is that of the
estimate, an empty estimate or a factor on an unknown variable is rejected,
Gauss-Newton moves each variable onto its factor, Levenberg-Marquardt half
the way, and both refuse to run with an iteration cap of zero. -/
def sampleCollaborators :
    Collaborators (List (Var × Int)) (List (Var × Int)) (List Var) Nat Nat
      SampleSolver SampleOptimizer Failure where
  orderingCOLAMD := fun _ t =>
    if t = [] then .error .malformedGraph else .ok (t.map Prod.fst)
  newOptimizer := fun b g t o p =>
    if g.all (fun f => o.contains f.1) then .ok ⟨some b, g, t, o, p⟩
    else .error .malformedGraph
  IterativeOptimizationParameters := 100
  newSubgraphSolver := fun _ t i =>
    if t = [] then .error .malformedGraph else .ok ⟨(t.map Prod.fst).reverse, i⟩
  solverOrdering := fun s => s.ordering
  newSPCGOptimizer := fun g t o _ p => .ok ⟨none, g, t, o, p⟩
  levenbergMarquardt := fun n =>
    if n.maxIterations = 0 then .error .notConverged
    else .ok ⟨n.backend, n.graph,
      n.values.map (fun kv => (kv.1, kv.2 + (sampleTarget n.graph kv - kv.2) / 2)),
      n.ordering, n.maxIterations⟩
  gaussNewton := fun n =>
    if n.maxIterations = 0 then .error .notConverged
    else .ok ⟨n.backend, n.graph,
      n.values.map (fun kv => (kv.1, sampleTarget n.graph kv)),
      n.ordering, n.maxIterations⟩
  values := fun n => n.values

/-- The graph of the small instance: one factor on each of `a`, `b`, `c`. -/
def sampleGraph : List (Var × Int) := [(.a, 2), (.b, 4), (.c, 6)]

/-- The initial estimate of the small instance. -/
def sampleInitial : List (Var × Int) := [(.a, 0), (.b, 0), (.c, 0)]

/-- The numbering of the enumerators when they are declared in the order
`SEQUENTIAL, MULTIFRONTAL, SPCG` and `LM, GN` without initialisers. -/
def sampleEnumerators : Enumerators where
  SEQUENTIAL := 0
  MULTIFRONTAL := 1
  SPCG := 2
  LM := 0
  GN := 1

/-- Copies of the small instance when memory is exhausted: the copies for the
engine constructor throw, whatever is copied. -/
def sampleCopiesNoMemory : Copies (List (Var × Int)) (List (Var × Int)) Nat Failure where
  make_shared := fun _ _ _ => .error .bad_alloc
  copyResult := fun v => .ok v

/-- Copies of the small instance that succeed for the engine constructor and
throw when the result is copied into the return value. -/
def sampleCopiesNoResult : Copies (List (Var × Int)) (List (Var × Int)) Nat Failure where
  make_shared := fun g t p => .ok (g, t, p)
  copyResult := fun _ => .error .bad_alloc

section Properties

variable {G T O P I S N X : Type}

/-! ## Lemmas on the entry points -/

theorem optimizeSequential_eq (c : Collaborators G T O P I S N X) (graph : G)
    (initialEstimate : T) (parameters : P) (useLM : Bool) :
    optimizeSequential c graph initialEstimate parameters useLM
      = eliminationRun c .GaussianSequentialSolver graph initialEstimate parameters useLM := by
  unfold optimizeSequential eliminationRun
  cases h1 : c.orderingCOLAMD graph initialEstimate with
  | error e => simp [bind, Run.bind, call, h1]
  | ok o =>
    cases h2 : c.newOptimizer .GaussianSequentialSolver graph initialEstimate o parameters with
    | error e => simp [bind, Run.bind, call, h1, h2]
    | ok n =>
      cases useLM with
      | true =>
        cases h3 : c.levenbergMarquardt n <;>
          simp [bind, Run.bind, call, h1, h2, h3, Collaborators.strategy, Call.strategy]
      | false =>
        cases h3 : c.gaussNewton n <;>
          simp [bind, Run.bind, call, h1, h2, h3, Collaborators.strategy, Call.strategy]

theorem optimizeMultiFrontal_eq (c : Collaborators G T O P I S N X) (graph : G)
    (initialEstimate : T) (parameters : P) (useLM : Bool) :
    optimizeMultiFrontal c graph initialEstimate parameters useLM
      = eliminationRun c .GaussianMultifrontalSolver graph initialEstimate parameters useLM := by
  unfold optimizeMultiFrontal eliminationRun
  cases h1 : c.orderingCOLAMD graph initialEstimate with
  | error e => simp [bind, Run.bind, call, h1]
  | ok o =>
    cases h2 : c.newOptimizer .GaussianMultifrontalSolver graph initialEstimate o parameters with
    | error e => simp [bind, Run.bind, call, h1, h2]
    | ok n =>
      cases useLM with
      | true =>
        cases h3 : c.levenbergMarquardt n <;>
          simp [bind, Run.bind, call, h1, h2, h3, Collaborators.strategy, Call.strategy]
      | false =>
        cases h3 : c.gaussNewton n <;>
          simp [bind, Run.bind, call, h1, h2, h3, Collaborators.strategy, Call.strategy]

/-- Under a solver kind routed to backend `b`, `optimize` is the elimination
run with that backend and the flag `nonlinear_method == LM`. -/
theorem optimize_eq_of_routes (E : Enumerators) (c : Collaborators G T O P I S N X) (graph : G)
    (initialEstimate : T) (parameters : P) (solver nonlinear_method : Int) (b : Backend)
    (hE : E.SEQUENTIAL ≠ E.MULTIFRONTAL) (hr : E.routes solver b) :
    optimize E c graph initialEstimate parameters solver nonlinear_method
      = eliminationRun c b graph initialEstimate parameters (nonlinear_method == E.LM) := by
  rcases hr with ⟨hs, hb⟩ | ⟨hs, hb⟩
  · subst hs hb
    unfold optimize
    rw [if_pos rfl, optimizeSequential_eq]
  · subst hs hb
    unfold optimize
    rw [if_neg (Ne.symm hE), if_pos rfl, optimizeMultiFrontal_eq]

/-- Under the label `SPCG` the `switch` reaches the first `throw`. -/
theorem optimize_SPCG_eq (E : Enumerators) (c : Collaborators G T O P I S N X) (graph : G)
    (initialEstimate : T) (parameters : P) (nonlinear_method : Int) (hE : E.labelsDistinct) :
    optimize E c graph initialEstimate parameters E.SPCG nonlinear_method
      = throw_runtime_error
          "optimize: SPCG not supported yet due to the specific pose constraint" := by
  obtain ⟨_, h2, h3⟩ := hE
  unfold optimize
  rw [if_neg (Ne.symm h2), if_neg (Ne.symm h3), if_pos rfl]

/-- With no matching label the `switch` is left and the last `throw` is reached. -/
theorem optimize_other_eq (E : Enumerators) (c : Collaborators G T O P I S N X) (graph : G)
    (initialEstimate : T) (parameters : P) (solver nonlinear_method : Int)
    (h1 : solver ≠ E.SEQUENTIAL) (h2 : solver ≠ E.MULTIFRONTAL) (h3 : solver ≠ E.SPCG) :
    optimize E c graph initialEstimate parameters solver nonlinear_method
      = throw_runtime_error "optimize: undefined solver" := by
  unfold optimize
  rw [if_neg h1, if_neg h2, if_neg h3]

/-- The calls of an elimination run, whatever the collaborators do: the
ordering provider once and first, at most one engine, at most one strategy. -/
theorem eliminationRun_calls (c : Collaborators G T O P I S N X) (b : Backend) (graph : G)
    (initialEstimate : T) (parameters : P) (useLM : Bool) :
    (eliminationRun c b graph initialEstimate parameters useLM).trace.head?
        = some (.orderingCOLAMD graph initialEstimate) ∧
    (eliminationRun c b graph initialEstimate parameters useLM).trace.countP Call.isOrdering = 1 ∧
    (eliminationRun c b graph initialEstimate parameters useLM).trace.countP
        Call.isEngineConstruction ≤ 1 ∧
    (eliminationRun c b graph initialEstimate parameters useLM).trace.countP Call.isStrategy ≤ 1 ∧
    (eliminationRun c b graph initialEstimate parameters useLM).trace.countP
        Call.isBackendConstruction = 0 ∧
    (∀ ev ∈ (eliminationRun c b graph initialEstimate parameters useLM).trace,
      ev.isEngineConstruction = true →
        ∃ o, c.orderingCOLAMD graph initialEstimate = .ok o ∧
          ev = .newOptimizer b graph initialEstimate o parameters) ∧
    (∀ ev ∈ (eliminationRun c b graph initialEstimate parameters useLM).trace,
      ev.isStrategy = true →
        ∃ o n, c.orderingCOLAMD graph initialEstimate = .ok o ∧
          c.newOptimizer b graph initialEstimate o parameters = .ok n ∧
          ev = Call.strategy useLM n) := by
  cases h1 : c.orderingCOLAMD graph initialEstimate with
  | error e =>
    simp [eliminationRun, h1, Call.isOrdering, Call.isEngineConstruction, Call.isStrategy,
      Call.isLevenbergMarquardt, Call.isGaussNewton, Call.isBackendConstruction]
  | ok o =>
    cases h2 : c.newOptimizer b graph initialEstimate o parameters with
    | error e =>
      simp [eliminationRun, h1, h2, Call.isOrdering, Call.isEngineConstruction, Call.isStrategy,
        Call.isLevenbergMarquardt, Call.isGaussNewton, Call.isBackendConstruction]
    | ok n =>
      cases h3 : c.strategy useLM n <;> cases useLM <;>
        simp [eliminationRun, h1, h2, h3, Call.isOrdering, Call.isEngineConstruction,
          Call.isStrategy, Call.strategy, Call.isLevenbergMarquardt, Call.isGaussNewton,
          Call.isBackendConstruction]

/-- The strategy calls of an elimination run that reaches its engine. -/
theorem eliminationRun_strategy_calls (c : Collaborators G T O P I S N X) (b : Backend)
    (graph : G) (initialEstimate : T) (parameters : P) (useLM : Bool) (o : O) (n : N)
    (h1 : c.orderingCOLAMD graph initialEstimate = .ok o)
    (h2 : c.newOptimizer b graph initialEstimate o parameters = .ok n) :
    (eliminationRun c b graph initialEstimate parameters useLM).trace.filter Call.isStrategy
      = [Call.strategy useLM n] := by
  cases h3 : c.strategy useLM n <;> cases useLM <;>
    simp [eliminationRun, h1, h2, h3, Call.isStrategy, Call.strategy,
      Call.isLevenbergMarquardt, Call.isGaussNewton]

/-- An elimination run never ends with a `runtime_error` of the facade. -/
theorem eliminationRun_no_runtime_error (c : Collaborators G T O P I S N X) (b : Backend)
    (graph : G) (initialEstimate : T) (parameters : P) (useLM : Bool) (what : String) :
    (eliminationRun c b graph initialEstimate parameters useLM).outcome
      ≠ .error (.runtime_error what) := by
  cases h1 : c.orderingCOLAMD graph initialEstimate with
  | error e => simp [eliminationRun, h1]
  | ok o =>
    cases h2 : c.newOptimizer b graph initialEstimate o parameters with
    | error e => simp [eliminationRun, h1, h2]
    | ok n => cases h3 : c.strategy useLM n <;> simp [eliminationRun, h1, h2, h3]

/-- The recorded strategy call is a Levenberg-Marquardt call exactly under the flag. -/
theorem Call.strategy_isLevenbergMarquardt (useLM : Bool) (n : N) :
    (Call.strategy useLM n : Call G T O P I S N).isLevenbergMarquardt = useLM := by
  cases useLM <;> rfl

/-- The recorded strategy call is a Gauss-Newton call exactly without the flag. -/
theorem Call.strategy_isGaussNewton (useLM : Bool) (n : N) :
    (Call.strategy useLM n : Call G T O P I S N).isGaussNewton = !useLM := by
  cases useLM <;> rfl

/-- Without the flag an elimination run makes no Levenberg-Marquardt call. -/
theorem eliminationRun_false_no_levenbergMarquardt (c : Collaborators G T O P I S N X)
    (b : Backend) (graph : G) (initialEstimate : T) (parameters : P) :
    (eliminationRun c b graph initialEstimate parameters false).trace.countP
      Call.isLevenbergMarquardt = 0 := by
  cases h1 : c.orderingCOLAMD graph initialEstimate with
  | error e => simp [eliminationRun, h1, Call.isLevenbergMarquardt]
  | ok o =>
    cases h2 : c.newOptimizer b graph initialEstimate o parameters with
    | error e => simp [eliminationRun, h1, h2, Call.isLevenbergMarquardt]
    | ok n =>
      cases h3 : c.strategy false n <;>
        simp [eliminationRun, h1, h2, h3, Call.isLevenbergMarquardt, Call.strategy]

theorem copying_optimizeSequential_eq (k : Copies G T P X)
    (c : Collaborators G T O P I S N X) (graph : G) (initialEstimate : T) (parameters : P)
    (useLM : Bool) :
    Copying.optimizeSequential k c graph initialEstimate parameters useLM
      = Copying.eliminationRun k c .GaussianSequentialSolver graph initialEstimate parameters
          useLM := by
  unfold Copying.optimizeSequential Copying.eliminationRun
  cases h1 : c.orderingCOLAMD graph initialEstimate with
  | error e => simp [bind, Run.bind, call, h1]
  | ok o =>
    cases h0 : k.make_shared graph initialEstimate parameters with
    | error e => simp [bind, Run.bind, call, step, h1, h0]
    | ok cp =>
      cases h2 : c.newOptimizer .GaussianSequentialSolver cp.1 cp.2.1 o cp.2.2 with
      | error e => simp [bind, Run.bind, call, step, h1, h0, h2]
      | ok n =>
        cases useLM with
        | true =>
          cases h3 : c.levenbergMarquardt n with
          | error e =>
            simp [bind, Run.bind, call, step, h1, h0, h2, h3, Collaborators.strategy,
              Call.strategy]
          | ok r =>
            cases h4 : k.copyResult (c.values r) <;>
              simp [bind, Run.bind, call, step, h1, h0, h2, h3, h4, Collaborators.strategy,
                Call.strategy]
        | false =>
          cases h3 : c.gaussNewton n with
          | error e =>
            simp [bind, Run.bind, call, step, h1, h0, h2, h3, Collaborators.strategy,
              Call.strategy]
          | ok r =>
            cases h4 : k.copyResult (c.values r) <;>
              simp [bind, Run.bind, call, step, h1, h0, h2, h3, h4, Collaborators.strategy,
                Call.strategy]

theorem copying_optimizeMultiFrontal_eq (k : Copies G T P X)
    (c : Collaborators G T O P I S N X) (graph : G) (initialEstimate : T) (parameters : P)
    (useLM : Bool) :
    Copying.optimizeMultiFrontal k c graph initialEstimate parameters useLM
      = Copying.eliminationRun k c .GaussianMultifrontalSolver graph initialEstimate parameters
          useLM := by
  unfold Copying.optimizeMultiFrontal Copying.eliminationRun
  cases h1 : c.orderingCOLAMD graph initialEstimate with
  | error e => simp [bind, Run.bind, call, h1]
  | ok o =>
    cases h0 : k.make_shared graph initialEstimate parameters with
    | error e => simp [bind, Run.bind, call, step, h1, h0]
    | ok cp =>
      cases h2 : c.newOptimizer .GaussianMultifrontalSolver cp.1 cp.2.1 o cp.2.2 with
      | error e => simp [bind, Run.bind, call, step, h1, h0, h2]
      | ok n =>
        cases useLM with
        | true =>
          cases h3 : c.levenbergMarquardt n with
          | error e =>
            simp [bind, Run.bind, call, step, h1, h0, h2, h3, Collaborators.strategy,
              Call.strategy]
          | ok r =>
            cases h4 : k.copyResult (c.values r) <;>
              simp [bind, Run.bind, call, step, h1, h0, h2, h3, h4, Collaborators.strategy,
                Call.strategy]
        | false =>
          cases h3 : c.gaussNewton n with
          | error e =>
            simp [bind, Run.bind, call, step, h1, h0, h2, h3, Collaborators.strategy,
              Call.strategy]
          | ok r =>
            cases h4 : k.copyResult (c.values r) <;>
              simp [bind, Run.bind, call, step, h1, h0, h2, h3, h4, Collaborators.strategy,
                Call.strategy]

/-- Under a solver kind routed to backend `b`, `optimize` with its copies is
the elimination run with that backend and the flag `nonlinear_method == LM`. -/
theorem copying_optimize_eq_of_routes (E : Enumerators) (k : Copies G T P X)
    (c : Collaborators G T O P I S N X) (graph : G) (initialEstimate : T) (parameters : P)
    (solver nonlinear_method : Int) (b : Backend)
    (hE : E.SEQUENTIAL ≠ E.MULTIFRONTAL) (hr : E.routes solver b) :
    Copying.optimize E k c graph initialEstimate parameters solver nonlinear_method
      = Copying.eliminationRun k c b graph initialEstimate parameters
          (nonlinear_method == E.LM) := by
  rcases hr with ⟨hs, hb⟩ | ⟨hs, hb⟩
  · subst hs hb
    unfold Copying.optimize
    rw [if_pos rfl, copying_optimizeSequential_eq]
  · subst hs hb
    unfold Copying.optimize
    rw [if_neg (Ne.symm hE), if_pos rfl, copying_optimizeMultiFrontal_eq]

/-- With exact copies the elimination run with copies is the plain one. -/
theorem copying_eliminationRun_exact (c : Collaborators G T O P I S N X) (b : Backend)
    (graph : G) (initialEstimate : T) (parameters : P) (useLM : Bool) :
    Copying.eliminationRun Copies.exact c b graph initialEstimate parameters useLM
      = eliminationRun c b graph initialEstimate parameters useLM := by
  cases h1 : c.orderingCOLAMD graph initialEstimate with
  | error e => simp [Copying.eliminationRun, eliminationRun, h1]
  | ok o =>
    cases h2 : c.newOptimizer b graph initialEstimate o parameters with
    | error e => simp [Copying.eliminationRun, eliminationRun, Copies.exact, h1, h2]
    | ok n =>
      cases h3 : c.strategy useLM n <;>
        simp [Copying.eliminationRun, eliminationRun, Copies.exact, h1, h2, h3]

/-- The plain `optimizeSequential` is the one with copies when the copies are exact. -/
theorem copying_optimizeSequential_exact (c : Collaborators G T O P I S N X) (graph : G)
    (initialEstimate : T) (parameters : P) (useLM : Bool) :
    Copying.optimizeSequential Copies.exact c graph initialEstimate parameters useLM
      = optimizeSequential c graph initialEstimate parameters useLM := by
  rw [copying_optimizeSequential_eq, optimizeSequential_eq, copying_eliminationRun_exact]

/-- The plain `optimizeMultiFrontal` is the one with copies when the copies are exact. -/
theorem copying_optimizeMultiFrontal_exact (c : Collaborators G T O P I S N X) (graph : G)
    (initialEstimate : T) (parameters : P) (useLM : Bool) :
    Copying.optimizeMultiFrontal Copies.exact c graph initialEstimate parameters useLM
      = optimizeMultiFrontal c graph initialEstimate parameters useLM := by
  rw [copying_optimizeMultiFrontal_eq, optimizeMultiFrontal_eq, copying_eliminationRun_exact]

/-- The plain `optimize` is the one with copies when the copies are exact. -/
theorem copying_optimize_exact (E : Enumerators) (c : Collaborators G T O P I S N X)
    (graph : G) (initialEstimate : T) (parameters : P) (solver nonlinear_method : Int) :
    Copying.optimize E Copies.exact c graph initialEstimate parameters solver nonlinear_method
      = optimize E c graph initialEstimate parameters solver nonlinear_method := by
  unfold Copying.optimize optimize
  rw [copying_optimizeSequential_exact, copying_optimizeMultiFrontal_exact]

/-- The outcome of an elimination run with copies in each of its six cases. -/
theorem copying_eliminationRun_outcome (k : Copies G T P X)
    (c : Collaborators G T O P I S N X) (b : Backend) (graph : G) (initialEstimate : T)
    (parameters : P) (useLM : Bool) :
    (∀ e, c.orderingCOLAMD graph initialEstimate = .error e →
      (Copying.eliminationRun k c b graph initialEstimate parameters useLM).outcome
        = .error (.collaborator e)) ∧
    (∀ o e, c.orderingCOLAMD graph initialEstimate = .ok o →
      k.make_shared graph initialEstimate parameters = .error e →
      (Copying.eliminationRun k c b graph initialEstimate parameters useLM).outcome
        = .error (.collaborator e)) ∧
    (∀ o cp e, c.orderingCOLAMD graph initialEstimate = .ok o →
      k.make_shared graph initialEstimate parameters = .ok cp →
      c.newOptimizer b cp.1 cp.2.1 o cp.2.2 = .error e →
      (Copying.eliminationRun k c b graph initialEstimate parameters useLM).outcome
        = .error (.collaborator e)) ∧
    (∀ o cp n e, c.orderingCOLAMD graph initialEstimate = .ok o →
      k.make_shared graph initialEstimate parameters = .ok cp →
      c.newOptimizer b cp.1 cp.2.1 o cp.2.2 = .ok n →
      c.strategy useLM n = .error e →
      (Copying.eliminationRun k c b graph initialEstimate parameters useLM).outcome
        = .error (.collaborator e)) ∧
    (∀ o cp n r e, c.orderingCOLAMD graph initialEstimate = .ok o →
      k.make_shared graph initialEstimate parameters = .ok cp →
      c.newOptimizer b cp.1 cp.2.1 o cp.2.2 = .ok n →
      c.strategy useLM n = .ok r →
      k.copyResult (c.values r) = .error e →
      (Copying.eliminationRun k c b graph initialEstimate parameters useLM).outcome
        = .error (.collaborator e)) ∧
    (∀ o cp n r v, c.orderingCOLAMD graph initialEstimate = .ok o →
      k.make_shared graph initialEstimate parameters = .ok cp →
      c.newOptimizer b cp.1 cp.2.1 o cp.2.2 = .ok n →
      c.strategy useLM n = .ok r →
      k.copyResult (c.values r) = .ok v →
      (Copying.eliminationRun k c b graph initialEstimate parameters useLM).outcome
        = .ok v) := by
  refine ⟨?_, ?_, ?_, ?_, ?_, ?_⟩
  · intro e h1
    simp [Copying.eliminationRun, h1]
  · intro o e h1 h0
    simp [Copying.eliminationRun, h1, h0]
  · intro o cp e h1 h0 h2
    simp [Copying.eliminationRun, h1, h0, h2]
  · intro o cp n e h1 h0 h2 h3
    simp [Copying.eliminationRun, h1, h0, h2, h3]
  · intro o cp n r e h1 h0 h2 h3 h4
    simp [Copying.eliminationRun, h1, h0, h2, h3, h4]
  · intro o cp n r v h1 h0 h2 h3 h4
    simp [Copying.eliminationRun, h1, h0, h2, h3, h4]

/-- The calls of an elimination run with copies, whatever the steps do: the
ordering provider once, at most one engine, at most one strategy; and it never
ends with a `runtime_error` of the facade. -/
theorem copying_eliminationRun_calls (k : Copies G T P X)
    (c : Collaborators G T O P I S N X) (b : Backend) (graph : G) (initialEstimate : T)
    (parameters : P) (useLM : Bool) :
    (Copying.eliminationRun k c b graph initialEstimate parameters useLM).trace.countP
        Call.isOrdering = 1 ∧
    (Copying.eliminationRun k c b graph initialEstimate parameters useLM).trace.countP
        Call.isEngineConstruction ≤ 1 ∧
    (Copying.eliminationRun k c b graph initialEstimate parameters useLM).trace.countP
        Call.isStrategy ≤ 1 ∧
    (∀ what, (Copying.eliminationRun k c b graph initialEstimate parameters useLM).outcome
      ≠ .error (.runtime_error what)) := by
  cases h1 : c.orderingCOLAMD graph initialEstimate with
  | error e =>
    simp [Copying.eliminationRun, h1, Call.isOrdering, Call.isEngineConstruction,
      Call.isStrategy, Call.isLevenbergMarquardt, Call.isGaussNewton]
  | ok o =>
    cases h0 : k.make_shared graph initialEstimate parameters with
    | error e =>
      simp [Copying.eliminationRun, h1, h0, Call.isOrdering, Call.isEngineConstruction,
        Call.isStrategy, Call.isLevenbergMarquardt, Call.isGaussNewton]
    | ok cp =>
      cases h2 : c.newOptimizer b cp.1 cp.2.1 o cp.2.2 with
      | error e =>
        simp [Copying.eliminationRun, h1, h0, h2, Call.isOrdering, Call.isEngineConstruction,
          Call.isStrategy, Call.isLevenbergMarquardt, Call.isGaussNewton]
      | ok n =>
        cases h3 : c.strategy useLM n with
        | error e =>
          cases useLM <;>
            simp [Copying.eliminationRun, h1, h0, h2, h3, Call.isOrdering,
              Call.isEngineConstruction, Call.isStrategy, Call.strategy,
              Call.isLevenbergMarquardt, Call.isGaussNewton]
        | ok r =>
          cases h4 : k.copyResult (c.values r) <;> cases useLM <;>
            simp [Copying.eliminationRun, h1, h0, h2, h3, h4, Call.isOrdering,
              Call.isEngineConstruction, Call.isStrategy, Call.strategy,
              Call.isLevenbergMarquardt, Call.isGaussNewton]

/-! ## The claims -/

/-- C1: for every graph, initial estimate, parameters and method kind,
`optimize` called with solver kind `SPCG` ends with the `runtime_error`
"optimize: SPCG not supported yet due to the specific pose constraint" and
returns no estimate. -/
theorem optimize_SPCG_not_supported (E : Enumerators) (c : Collaborators G T O P I S N X)
    (graph : G) (initialEstimate : T) (parameters : P) (nonlinear_method : Int)
    (hE : E.labelsDistinct) :
    (optimize E c graph initialEstimate parameters E.SPCG nonlinear_method).outcome
      = .error (.runtime_error
          "optimize: SPCG not supported yet due to the specific pose constraint") ∧
    ∀ estimate : T,
      (optimize E c graph initialEstimate parameters E.SPCG nonlinear_method).outcome
        ≠ .ok estimate := by
  rw [optimize_SPCG_eq E c graph initialEstimate parameters nonlinear_method hE]
  simp [throw_runtime_error]

/-- The small instance under solver kind `SPCG`. -/
theorem optimize_SPCG_not_supported_witness :
    sampleEnumerators.labelsDistinct ∧
    (optimize sampleEnumerators sampleCollaborators sampleGraph sampleInitial 10
        sampleEnumerators.SPCG sampleEnumerators.GN).outcome
      = .error (.runtime_error
          "optimize: SPCG not supported yet due to the specific pose constraint") :=
  ⟨by decide,
   (optimize_SPCG_not_supported sampleEnumerators sampleCollaborators sampleGraph
      sampleInitial 10 sampleEnumerators.GN (by decide)).1⟩

/-- C2: for every graph, initial estimate, parameters and method kind,
`optimize` called with a solver kind that is none of `SEQUENTIAL`,
`MULTIFRONTAL`, `SPCG` ends with the `runtime_error` "optimize: undefined
solver", which is not the outcome of the `SPCG` case, and calls no
collaborator. -/
theorem optimize_undefined_solver (E : Enumerators) (c : Collaborators G T O P I S N X)
    (graph : G) (initialEstimate : T) (parameters : P) (solver nonlinear_method : Int)
    (h1 : solver ≠ E.SEQUENTIAL) (h2 : solver ≠ E.MULTIFRONTAL) (h3 : solver ≠ E.SPCG) :
    (optimize E c graph initialEstimate parameters solver nonlinear_method).outcome
      = .error (.runtime_error "optimize: undefined solver") ∧
    (E.labelsDistinct →
      (optimize E c graph initialEstimate parameters solver nonlinear_method).outcome
        ≠ (optimize E c graph initialEstimate parameters E.SPCG nonlinear_method).outcome) ∧
    (optimize E c graph initialEstimate parameters solver nonlinear_method).trace = [] := by
  rw [optimize_other_eq E c graph initialEstimate parameters solver nonlinear_method h1 h2 h3]
  refine ⟨rfl, ?_, rfl⟩
  intro hE
  rw [optimize_SPCG_eq E c graph initialEstimate parameters nonlinear_method hE]
  simp only [throw_runtime_error, ne_eq, Except.error.injEq, Exn.runtime_error.injEq]
  decide

/-- The small instance under the solver kind 3, which is no enumerator. -/
theorem optimize_undefined_solver_witness :
    ((3 : Int) ≠ sampleEnumerators.SEQUENTIAL ∧ (3 : Int) ≠ sampleEnumerators.MULTIFRONTAL ∧
      (3 : Int) ≠ sampleEnumerators.SPCG) ∧
    (optimize sampleEnumerators sampleCollaborators sampleGraph sampleInitial 10 3
        sampleEnumerators.LM).outcome
      = .error (.runtime_error "optimize: undefined solver") ∧
    (optimize sampleEnumerators sampleCollaborators sampleGraph sampleInitial 10 3
        sampleEnumerators.LM).outcome
      ≠ (optimize sampleEnumerators sampleCollaborators sampleGraph sampleInitial 10
          sampleEnumerators.SPCG sampleEnumerators.LM).outcome ∧
    (optimize sampleEnumerators sampleCollaborators sampleGraph sampleInitial 10 3
        sampleEnumerators.LM).trace = [] :=
  have h := optimize_undefined_solver sampleEnumerators sampleCollaborators sampleGraph
    sampleInitial 10 3 sampleEnumerators.LM (by decide) (by decide) (by decide)
  ⟨by decide, h.1, h.2.1 (by decide), h.2.2⟩

/-- C3: for every graph, estimate and parameters, `optimize` with solver
`SEQUENTIAL` is `optimizeSequential` with `useLM = (method == LM)`, and with
solver `MULTIFRONTAL` it is `optimizeMultiFrontal` with the same flag.  Hence
under both solver kinds a Levenberg-Marquardt call is made only when the
method kind is `LM`, a Gauss-Newton call only when it is any other value, and
a run that reaches its engine calls exactly that one strategy, once. -/
theorem optimize_method_dispatch (E : Enumerators) (c : Collaborators G T O P I S N X)
    (graph : G) (initialEstimate : T) (parameters : P) (nonlinear_method : Int)
    (hE : E.SEQUENTIAL ≠ E.MULTIFRONTAL) :
    optimize E c graph initialEstimate parameters E.SEQUENTIAL nonlinear_method
      = optimizeSequential c graph initialEstimate parameters (nonlinear_method == E.LM) ∧
    optimize E c graph initialEstimate parameters E.MULTIFRONTAL nonlinear_method
      = optimizeMultiFrontal c graph initialEstimate parameters (nonlinear_method == E.LM) ∧
    ∀ solver b, E.routes solver b →
      (∀ ev ∈ (optimize E c graph initialEstimate parameters solver nonlinear_method).trace,
        ev.isLevenbergMarquardt = true → nonlinear_method = E.LM) ∧
      (∀ ev ∈ (optimize E c graph initialEstimate parameters solver nonlinear_method).trace,
        ev.isGaussNewton = true → nonlinear_method ≠ E.LM) ∧
      (∀ o n, c.orderingCOLAMD graph initialEstimate = .ok o →
        c.newOptimizer b graph initialEstimate o parameters = .ok n →
        (optimize E c graph initialEstimate parameters solver nonlinear_method).trace.filter
            Call.isStrategy
          = [if nonlinear_method = E.LM then .levenbergMarquardt n else .gaussNewton n]) := by
  refine ⟨?_, ?_, ?_⟩
  · unfold optimize
    rw [if_pos rfl]
  · unfold optimize
    rw [if_neg (Ne.symm hE), if_pos rfl]
  · intro solver b hr
    rw [optimize_eq_of_routes E c graph initialEstimate parameters solver nonlinear_method b
      hE hr]
    have hcalls := (eliminationRun_calls c b graph initialEstimate parameters
      (nonlinear_method == E.LM)).2.2.2.2.2.2
    refine ⟨?_, ?_, ?_⟩
    · intro ev hev hlm
      obtain ⟨o, n, _, _, rfl⟩ := hcalls ev hev (by simp [Call.isStrategy, hlm])
      rw [Call.strategy_isLevenbergMarquardt] at hlm
      simpa using hlm
    · intro ev hev hgn
      obtain ⟨o, n, _, _, rfl⟩ := hcalls ev hev (by simp [Call.isStrategy, hgn])
      rw [Call.strategy_isGaussNewton] at hgn
      simpa using hgn
    · intro o n h1 h2
      rw [eliminationRun_strategy_calls c b graph initialEstimate parameters _ o n h1 h2]
      by_cases hm : nonlinear_method = E.LM <;> simp [Call.strategy, hm]

/-- The small instance: method 7 under `SEQUENTIAL` takes the Gauss-Newton
branch, method `LM` under `MULTIFRONTAL` calls Levenberg-Marquardt once. -/
theorem optimize_method_dispatch_witness :
    sampleEnumerators.SEQUENTIAL ≠ sampleEnumerators.MULTIFRONTAL ∧
    optimize sampleEnumerators sampleCollaborators sampleGraph sampleInitial 10
        sampleEnumerators.SEQUENTIAL 7
      = optimizeSequential sampleCollaborators sampleGraph sampleInitial 10 false ∧
    (optimize sampleEnumerators sampleCollaborators sampleGraph sampleInitial 10
        sampleEnumerators.MULTIFRONTAL sampleEnumerators.LM).trace.filter Call.isStrategy
      = [.levenbergMarquardt
          ⟨some .GaussianMultifrontalSolver, sampleGraph, sampleInitial, [.a, .b, .c], 10⟩] :=
  have h := optimize_method_dispatch sampleEnumerators sampleCollaborators sampleGraph
    sampleInitial 10
  ⟨by decide, (h 7 (by decide)).1,
   ((h sampleEnumerators.LM (by decide)).2.2 sampleEnumerators.MULTIFRONTAL
      .GaussianMultifrontalSolver (Or.inr ⟨rfl, rfl⟩)).2.2 [.a, .b, .c]
      ⟨some .GaussianMultifrontalSolver, sampleGraph, sampleInitial, [.a, .b, .c], 10⟩
      rfl rfl⟩

/-- C6: for every graph, estimate, parameters and method kind, `optimize`
with solver kind `SPCG` throws before any collaborator is touched: the run
made no call at all, so no ordering call, no backend construction, no engine
construction and no strategy call. -/
theorem optimize_SPCG_touches_no_collaborator (E : Enumerators)
    (c : Collaborators G T O P I S N X) (graph : G) (initialEstimate : T) (parameters : P)
    (nonlinear_method : Int) (hE : E.labelsDistinct) :
    (optimize E c graph initialEstimate parameters E.SPCG nonlinear_method).trace = [] ∧
    (optimize E c graph initialEstimate parameters E.SPCG nonlinear_method).trace.countP
        Call.isOrdering = 0 ∧
    (optimize E c graph initialEstimate parameters E.SPCG nonlinear_method).trace.countP
        Call.isBackendConstruction = 0 ∧
    (optimize E c graph initialEstimate parameters E.SPCG nonlinear_method).trace.countP
        Call.isEngineConstruction = 0 ∧
    (optimize E c graph initialEstimate parameters E.SPCG nonlinear_method).trace.countP
        Call.isStrategy = 0 ∧
    ∃ what, (optimize E c graph initialEstimate parameters E.SPCG nonlinear_method).outcome
      = .error (.runtime_error what) := by
  rw [optimize_SPCG_eq E c graph initialEstimate parameters nonlinear_method hE]
  simp [throw_runtime_error]

/-- The small instance under solver kind `SPCG` makes no call. -/
theorem optimize_SPCG_touches_no_collaborator_witness :
    sampleEnumerators.labelsDistinct ∧
    (optimize sampleEnumerators sampleCollaborators sampleGraph sampleInitial 10
        sampleEnumerators.SPCG sampleEnumerators.LM).trace = [] :=
  ⟨by decide,
   (optimize_SPCG_touches_no_collaborator sampleEnumerators sampleCollaborators sampleGraph
      sampleInitial 10 sampleEnumerators.LM (by decide)).1⟩

/-- Counterexample to C5: with the method kind 7, which is neither `GN` nor
`LM`, under solver `SEQUENTIAL`, `optimize` raises no error and returns the
Gauss-Newton estimate of the small instance. -/
theorem optimize_unrecognized_method_counterexample :
    (7 : Int) ≠ sampleEnumerators.GN ∧ (7 : Int) ≠ sampleEnumerators.LM ∧
    (optimize sampleEnumerators sampleCollaborators sampleGraph sampleInitial 10
        sampleEnumerators.SEQUENTIAL 7).outcome
      = .ok [(.a, 2), (.b, 4), (.c, 6)] ∧
    (optimize sampleEnumerators sampleCollaborators sampleGraph sampleInitial 10
        sampleEnumerators.SEQUENTIAL 7).outcome
      ≠ .error (.runtime_error "optimize: undefined solver") := by
  decide

/-- C5, amended: for every graph, estimate, parameters and solver kind,
`optimize` called with a method kind other than `LM`, an unrecognized value
included, does what it does with `GN`: under `SEQUENTIAL` it is
`optimizeSequential` with `useLM = false`, under `MULTIFRONTAL` it is
`optimizeMultiFrontal` with `useLM = false`, and under both it makes no
Levenberg-Marquardt call and raises no `runtime_error` of its own. -/
theorem optimize_method_other_than_LM_runs_gaussNewton (E : Enumerators)
    (c : Collaborators G T O P I S N X) (graph : G) (initialEstimate : T) (parameters : P)
    (solver nonlinear_method : Int)
    (hm : nonlinear_method ≠ E.LM) (hGN : E.GN ≠ E.LM) (hE : E.SEQUENTIAL ≠ E.MULTIFRONTAL) :
    optimize E c graph initialEstimate parameters solver nonlinear_method
      = optimize E c graph initialEstimate parameters solver E.GN ∧
    (solver = E.SEQUENTIAL →
      optimize E c graph initialEstimate parameters solver nonlinear_method
        = optimizeSequential c graph initialEstimate parameters false) ∧
    (solver = E.MULTIFRONTAL →
      optimize E c graph initialEstimate parameters solver nonlinear_method
        = optimizeMultiFrontal c graph initialEstimate parameters false) ∧
    (solver = E.SEQUENTIAL ∨ solver = E.MULTIFRONTAL →
      (optimize E c graph initialEstimate parameters solver nonlinear_method).trace.countP
          Call.isLevenbergMarquardt = 0 ∧
      ∀ what,
        (optimize E c graph initialEstimate parameters solver nonlinear_method).outcome
          ≠ .error (.runtime_error what)) := by
  have hb : (nonlinear_method == E.LM) = false := by simpa using hm
  have hg : (E.GN == E.LM) = false := by simpa using hGN
  refine ⟨?_, ?_, ?_, ?_⟩
  · unfold optimize
    rw [hb, hg]
  · intro hs
    unfold optimize
    rw [if_pos hs, hb]
  · intro hs
    unfold optimize
    rw [if_neg (by rw [hs]; exact Ne.symm hE), if_pos hs, hb]
  · intro hs
    have hroute : ∃ b, E.routes solver b := by
      rcases hs with hs | hs
      · exact ⟨.GaussianSequentialSolver, Or.inl ⟨hs, rfl⟩⟩
      · exact ⟨.GaussianMultifrontalSolver, Or.inr ⟨hs, rfl⟩⟩
    obtain ⟨b, hr⟩ := hroute
    rw [optimize_eq_of_routes E c graph initialEstimate parameters solver nonlinear_method b
      hE hr, hb]
    exact ⟨eliminationRun_false_no_levenbergMarquardt c b graph initialEstimate parameters,
      eliminationRun_no_runtime_error c b graph initialEstimate parameters false⟩

/-- The small instance: method 7 under `MULTIFRONTAL` is the run of `GN`. -/
theorem optimize_method_other_than_LM_runs_gaussNewton_witness :
    ((7 : Int) ≠ sampleEnumerators.LM ∧ sampleEnumerators.GN ≠ sampleEnumerators.LM ∧
      sampleEnumerators.SEQUENTIAL ≠ sampleEnumerators.MULTIFRONTAL) ∧
    optimize sampleEnumerators sampleCollaborators sampleGraph sampleInitial 10
        sampleEnumerators.MULTIFRONTAL 7
      = optimize sampleEnumerators sampleCollaborators sampleGraph sampleInitial 10
          sampleEnumerators.MULTIFRONTAL sampleEnumerators.GN ∧
    optimize sampleEnumerators sampleCollaborators sampleGraph sampleInitial 10
        sampleEnumerators.MULTIFRONTAL 7
      = optimizeMultiFrontal sampleCollaborators sampleGraph sampleInitial 10 false :=
  have h := optimize_method_other_than_LM_runs_gaussNewton sampleEnumerators
    sampleCollaborators sampleGraph sampleInitial 10 sampleEnumerators.MULTIFRONTAL 7
    (by decide) (by decide) (by decide)
  ⟨by decide, h.1, h.2.2.1 rfl⟩

/-- Counterexample to C7: on the small instance under `SEQUENTIAL` with
Gauss-Newton the ordering provider, the engine constructor and the strategy
all return, yet `optimize` ends with an exception.  When the copies for the
engine constructor throw, it ends with that exception after the ordering call
alone; when the copy of the result throws, it ends with that exception after
the strategy has returned. -/
theorem optimize_copy_failure_counterexample :
    sampleCollaborators.orderingCOLAMD sampleGraph sampleInitial = .ok [.a, .b, .c] ∧
    sampleCollaborators.newOptimizer .GaussianSequentialSolver sampleGraph sampleInitial
        [.a, .b, .c] 10
      = .ok ⟨some .GaussianSequentialSolver, sampleGraph, sampleInitial, [.a, .b, .c], 10⟩ ∧
    sampleCollaborators.gaussNewton
        ⟨some .GaussianSequentialSolver, sampleGraph, sampleInitial, [.a, .b, .c], 10⟩
      = .ok ⟨some .GaussianSequentialSolver, sampleGraph, [(.a, 2), (.b, 4), (.c, 6)],
          [.a, .b, .c], 10⟩ ∧
    Copying.optimize sampleEnumerators sampleCopiesNoMemory sampleCollaborators sampleGraph
        sampleInitial 10 sampleEnumerators.SEQUENTIAL sampleEnumerators.GN
      = ⟨.error (.collaborator .bad_alloc), [.orderingCOLAMD sampleGraph sampleInitial]⟩ ∧
    Copying.optimize sampleEnumerators sampleCopiesNoResult sampleCollaborators sampleGraph
        sampleInitial 10 sampleEnumerators.SEQUENTIAL sampleEnumerators.GN
      = ⟨.error (.collaborator .bad_alloc),
         [.orderingCOLAMD sampleGraph sampleInitial,
          .newOptimizer .GaussianSequentialSolver sampleGraph sampleInitial [.a, .b, .c] 10,
          .gaussNewton
            ⟨some .GaussianSequentialSolver, sampleGraph, sampleInitial, [.a, .b, .c], 10⟩,
          .values
            ⟨some .GaussianSequentialSolver, sampleGraph, [(.a, 2), (.b, 4), (.c, 6)],
             [.a, .b, .c], 10⟩]⟩ := by
  decide

/-- C7, amended: for solver kind `SEQUENTIAL` or `MULTIFRONTAL` and any
method kind, `optimize` ends with an exception exactly when one of its steps
throws: the ordering provider, the copies of graph, estimate and parameters
made for the engine constructor, the engine constructor, the selected
strategy, or the copy of the resulting values into the return value.  The
exception is then the one that step threw, unchanged; no collaborator is
called a second time; no `runtime_error` of the facade is raised; and when
every step returns, `optimize` returns the copy of the values of the
optimizer the strategy returned. -/
theorem optimize_passes_step_failures_through (E : Enumerators) (k : Copies G T P X)
    (c : Collaborators G T O P I S N X) (graph : G) (initialEstimate : T) (parameters : P)
    (solver nonlinear_method : Int) (b : Backend)
    (hE : E.SEQUENTIAL ≠ E.MULTIFRONTAL) (hr : E.routes solver b) :
    (∀ e, c.orderingCOLAMD graph initialEstimate = .error e →
      (Copying.optimize E k c graph initialEstimate parameters solver nonlinear_method).outcome
        = .error (.collaborator e)) ∧
    (∀ o e, c.orderingCOLAMD graph initialEstimate = .ok o →
      k.make_shared graph initialEstimate parameters = .error e →
      (Copying.optimize E k c graph initialEstimate parameters solver nonlinear_method).outcome
        = .error (.collaborator e)) ∧
    (∀ o cp e, c.orderingCOLAMD graph initialEstimate = .ok o →
      k.make_shared graph initialEstimate parameters = .ok cp →
      c.newOptimizer b cp.1 cp.2.1 o cp.2.2 = .error e →
      (Copying.optimize E k c graph initialEstimate parameters solver nonlinear_method).outcome
        = .error (.collaborator e)) ∧
    (∀ o cp n e, c.orderingCOLAMD graph initialEstimate = .ok o →
      k.make_shared graph initialEstimate parameters = .ok cp →
      c.newOptimizer b cp.1 cp.2.1 o cp.2.2 = .ok n →
      c.strategy (nonlinear_method == E.LM) n = .error e →
      (Copying.optimize E k c graph initialEstimate parameters solver nonlinear_method).outcome
        = .error (.collaborator e)) ∧
    (∀ o cp n r e, c.orderingCOLAMD graph initialEstimate = .ok o →
      k.make_shared graph initialEstimate parameters = .ok cp →
      c.newOptimizer b cp.1 cp.2.1 o cp.2.2 = .ok n →
      c.strategy (nonlinear_method == E.LM) n = .ok r →
      k.copyResult (c.values r) = .error e →
      (Copying.optimize E k c graph initialEstimate parameters solver nonlinear_method).outcome
        = .error (.collaborator e)) ∧
    (∀ o cp n r v, c.orderingCOLAMD graph initialEstimate = .ok o →
      k.make_shared graph initialEstimate parameters = .ok cp →
      c.newOptimizer b cp.1 cp.2.1 o cp.2.2 = .ok n →
      c.strategy (nonlinear_method == E.LM) n = .ok r →
      k.copyResult (c.values r) = .ok v →
      (Copying.optimize E k c graph initialEstimate parameters solver nonlinear_method).outcome
        = .ok v) ∧
    ((∃ x,
        (Copying.optimize E k c graph initialEstimate parameters solver
          nonlinear_method).outcome = .error x) ↔
      ((∃ e, c.orderingCOLAMD graph initialEstimate = .error e) ∨
       (∃ o e, c.orderingCOLAMD graph initialEstimate = .ok o ∧
          k.make_shared graph initialEstimate parameters = .error e) ∨
       (∃ o cp e, c.orderingCOLAMD graph initialEstimate = .ok o ∧
          k.make_shared graph initialEstimate parameters = .ok cp ∧
          c.newOptimizer b cp.1 cp.2.1 o cp.2.2 = .error e) ∨
       (∃ o cp n e, c.orderingCOLAMD graph initialEstimate = .ok o ∧
          k.make_shared graph initialEstimate parameters = .ok cp ∧
          c.newOptimizer b cp.1 cp.2.1 o cp.2.2 = .ok n ∧
          c.strategy (nonlinear_method == E.LM) n = .error e) ∨
       (∃ o cp n r e, c.orderingCOLAMD graph initialEstimate = .ok o ∧
          k.make_shared graph initialEstimate parameters = .ok cp ∧
          c.newOptimizer b cp.1 cp.2.1 o cp.2.2 = .ok n ∧
          c.strategy (nonlinear_method == E.LM) n = .ok r ∧
          k.copyResult (c.values r) = .error e))) ∧
    (∀ what,
      (Copying.optimize E k c graph initialEstimate parameters solver nonlinear_method).outcome
        ≠ .error (.runtime_error what)) ∧
    (Copying.optimize E k c graph initialEstimate parameters solver nonlinear_method).trace.countP
        Call.isOrdering ≤ 1 ∧
    (Copying.optimize E k c graph initialEstimate parameters solver nonlinear_method).trace.countP
        Call.isEngineConstruction ≤ 1 ∧
    (Copying.optimize E k c graph initialEstimate parameters solver nonlinear_method).trace.countP
        Call.isStrategy ≤ 1 := by
  rw [copying_optimize_eq_of_routes E k c graph initialEstimate parameters solver
    nonlinear_method b hE hr]
  obtain ⟨o1, o2, o3, o4, o5, o6⟩ :=
    copying_eliminationRun_outcome k c b graph initialEstimate parameters
      (nonlinear_method == E.LM)
  obtain ⟨c1, c2, c3, c4⟩ :=
    copying_eliminationRun_calls k c b graph initialEstimate parameters
      (nonlinear_method == E.LM)
  refine ⟨o1, o2, o3, o4, o5, o6, ?_, c4, le_of_eq c1, c2, c3⟩
  cases h1 : c.orderingCOLAMD graph initialEstimate with
  | error e => simp [o1 e h1]
  | ok o =>
    cases h0 : k.make_shared graph initialEstimate parameters with
    | error e => simp [o2 o e h1 h0]
    | ok cp =>
      cases h2 : c.newOptimizer b cp.1 cp.2.1 o cp.2.2 with
      | error e => simp [o3 o cp e h1 h0 h2, h2]
      | ok n =>
        cases h3 : c.strategy (nonlinear_method == E.LM) n with
        | error e => simp [o4 o cp n e h1 h0 h2 h3, h2, h3]
        | ok r =>
          cases h4 : k.copyResult (c.values r) with
          | error e => simp [o5 o cp n r e h1 h0 h2 h3 h4, h2, h3, h4]
          | ok v => simp [o6 o cp n r v h1 h0 h2 h3 h4, h2, h3, h4]

/-- The small instance under `MULTIFRONTAL` with Levenberg-Marquardt: an empty
estimate makes the ordering provider throw, exhausted memory makes the copies
throw, an iteration cap of zero makes the strategy throw, and `optimize` ends
with exactly these exceptions; with exact copies it returns the estimate. -/
theorem optimize_passes_step_failures_through_witness :
    sampleEnumerators.SEQUENTIAL ≠ sampleEnumerators.MULTIFRONTAL ∧
    sampleEnumerators.routes sampleEnumerators.MULTIFRONTAL .GaussianMultifrontalSolver ∧
    (Copying.optimize sampleEnumerators Copies.exact sampleCollaborators sampleGraph [] 10
        sampleEnumerators.MULTIFRONTAL sampleEnumerators.LM).outcome
      = .error (.collaborator .malformedGraph) ∧
    (Copying.optimize sampleEnumerators sampleCopiesNoMemory sampleCollaborators sampleGraph
        sampleInitial 10 sampleEnumerators.MULTIFRONTAL sampleEnumerators.LM).outcome
      = .error (.collaborator .bad_alloc) ∧
    (Copying.optimize sampleEnumerators Copies.exact sampleCollaborators sampleGraph
        sampleInitial 0 sampleEnumerators.MULTIFRONTAL sampleEnumerators.LM).outcome
      = .error (.collaborator .notConverged) ∧
    (Copying.optimize sampleEnumerators sampleCopiesNoResult sampleCollaborators sampleGraph
        sampleInitial 10 sampleEnumerators.MULTIFRONTAL sampleEnumerators.LM).outcome
      = .error (.collaborator .bad_alloc) ∧
    (Copying.optimize sampleEnumerators Copies.exact sampleCollaborators sampleGraph
        sampleInitial 10 sampleEnumerators.MULTIFRONTAL sampleEnumerators.LM).outcome
      = .ok [(.a, 1), (.b, 2), (.c, 3)] :=
  have h := fun k t p =>
    optimize_passes_step_failures_through sampleEnumerators k sampleCollaborators
      sampleGraph t p sampleEnumerators.MULTIFRONTAL sampleEnumerators.LM
      .GaussianMultifrontalSolver (by decide) (Or.inr ⟨rfl, rfl⟩)
  ⟨by decide, Or.inr ⟨rfl, rfl⟩,
   (h Copies.exact [] 10).1 .malformedGraph rfl,
   (h sampleCopiesNoMemory sampleInitial 10).2.1 [.a, .b, .c] .bad_alloc rfl rfl,
   (h Copies.exact sampleInitial 0).2.2.2.1 [.a, .b, .c] (sampleGraph, sampleInitial, 0)
      ⟨some .GaussianMultifrontalSolver, sampleGraph, sampleInitial, [.a, .b, .c], 0⟩
      .notConverged rfl rfl rfl rfl,
   (h sampleCopiesNoResult sampleInitial 10).2.2.2.2.1 [.a, .b, .c]
      (sampleGraph, sampleInitial, 10)
      ⟨some .GaussianMultifrontalSolver, sampleGraph, sampleInitial, [.a, .b, .c], 10⟩
      ⟨some .GaussianMultifrontalSolver, sampleGraph, [(.a, 1), (.b, 2), (.c, 3)],
        [.a, .b, .c], 10⟩
      .bad_alloc rfl rfl rfl rfl rfl,
   (h Copies.exact sampleInitial 10).2.2.2.2.2.1 [.a, .b, .c]
      (sampleGraph, sampleInitial, 10)
      ⟨some .GaussianMultifrontalSolver, sampleGraph, sampleInitial, [.a, .b, .c], 10⟩
      ⟨some .GaussianMultifrontalSolver, sampleGraph, [(.a, 1), (.b, 2), (.c, 3)],
        [.a, .b, .c], 10⟩
      [(.a, 1), (.b, 2), (.c, 3)] rfl rfl rfl rfl rfl⟩

end Properties

end gtsam
